import Mathlib

/-
Verification of the spark-tk Frame layer: schema inference, schema
validation/casting, and the dual-backend (Python/Scala) frame facade.

The definitions below are a shallow embedding of
src/python/sparktk/frame/frame.py (Python 2).  Machine-level Python
values are modelled by the inductive type Value; Python exceptions are
modelled with Except; the laziness of pyrdd.map is modelled by keeping
the per-row results as a list of Except values that is only collapsed
by an explicit consume step (modelling collect/take on the RDD).
-/

set_option autoImplicit false

namespace SparkTK

/-- Column data types that occur in this layer.  The scalar constructors
correspond to the Python 2 runtime classes int, long, float, str, unicode,
bool, NoneType and datetime; vector is the sparktk dtypes.vector object,
which carries its fixed length as part of its identity. -/
inductive DType where
  | int
  | long
  | float
  | str
  | unicode
  | bool
  | noneType
  | datetime
  | vector (length : Nat)
deriving DecidableEq

/-- Python runtime values handled by this layer.  Python float is modelled
by a rational number (no claim here depends on binary rounding); Python
None, the null marker, is the constructor Value.none. -/
inductive Value where
  | int (n : Int)
  | long (n : Int)
  | float (q : Rat)
  | str (s : String)
  | unicode (s : String)
  | bool (b : Bool)
  | list (items : List Value)
  | none

/-- A row is an ordered list of values. -/
abbrev Row := List Value

/-- A schema is an ordered list of (column name, column type) pairs. -/
abbrev Schema := List (String × DType)

/-- Python 2 isinstance on the classes used by validate_pyrdd_schema.
bool is a subclass of int in Python, so a bool value is an instance of
int; int and long are distinct classes, as are str and unicode. -/
def isInstanceOf (v : Value) (dt : DType) : Bool :=
  match v, dt with
  | Value.int _, DType.int => true
  | Value.bool _, DType.int => true
  | Value.bool _, DType.bool => true
  | Value.long _, DType.long => true
  | Value.float _, DType.float => true
  | Value.str _, DType.str => true
  | Value.unicode _, DType.unicode => true
  | Value.none, DType.noneType => true
  | _, _ => false

/-- Numeric value of a list of decimal digit characters. -/
def digitsVal (l : List Char) : Nat :=
  l.foldl (fun a c => a * 10 + (c.toNat - 48)) 0

/-- Parsing a string as a Python int: an optional minus sign followed by
at least one decimal digit.  Returns Option.none where Python int(s)
raises ValueError. -/
def parseIntString (s : String) : Option Int :=
  match s.toList with
  | [] => Option.none
  | '-' :: rest =>
    if !rest.isEmpty && rest.all Char.isDigit then
      some (-(digitsVal rest : Int))
    else
      Option.none
  | l =>
    if l.all Char.isDigit then some ((digitsVal l : Int)) else Option.none

/-- Splits a character list at the first dot; the Bool records whether a
dot was present at all. -/
def splitOnDot : List Char → List Char × List Char × Bool
  | [] => ([], [], false)
  | c :: cs =>
    if c = '.' then ([], cs, true)
    else
      let r := splitOnDot cs
      (c :: r.1, r.2.1, r.2.2)

/-- Rational value of a sign, an integer digit part and a fractional
digit part. -/
def ratOfParts (neg : Bool) (a b : List Char) : Rat :=
  let v : Rat := (digitsVal a : Rat) + (digitsVal b : Rat) / ((10 : Rat) ^ b.length)
  if neg then -v else v

/-- Parsing a string as a Python float: an optional minus sign, decimal
digits with at most one dot, and at least one digit.  Returns Option.none
where Python float(s) raises ValueError. -/
def parseFloatString (s : String) : Option Rat :=
  let l := s.toList
  let p : Bool × List Char :=
    match l with
    | '-' :: rest => (true, rest)
    | _ => (false, l)
  let neg := p.1
  let l2 := p.2
  let q := splitOnDot l2
  if q.2.2 then
    if !(q.1.isEmpty && q.2.1.isEmpty) && q.1.all Char.isDigit && q.2.1.all Char.isDigit then
      some (ratOfParts neg q.1 q.2.1)
    else
      Option.none
  else
    if !l2.isEmpty && l2.all Char.isDigit then some (ratOfParts neg l2 []) else Option.none

/-- Truncation of a rational toward zero, as Python int(float) does. -/
def ratTrunc (q : Rat) : Int :=
  if q.num ≥ 0 then ((q.num.toNat / q.den : Nat) : Int)
  else -(((-q.num).toNat / q.den : Nat) : Int)

/-- String rendering used by Python str()/unicode().  The exact Python
formatting of floats and nested lists is approximated; only the fact
that the conversion succeeds matters to the validator. -/
def pyStr : Value → String
  | Value.int n => toString n
  | Value.long n => toString n
  | Value.float q => toString q.num ++ "/" ++ toString q.den
  | Value.str s => s
  | Value.unicode s => s
  | Value.bool b => if b then ("True") else ("False")
  | Value.list _ => "[list]"
  | Value.none => "None"

/-- Python int(value): Option.none models the TypeError/ValueError cases
that the validator catches. -/
def intCast : Value → Option Value
  | Value.int n => some (Value.int n)
  | Value.long n => some (Value.int n)
  | Value.float q => some (Value.int (ratTrunc q))
  | Value.bool b => some (Value.int (if b then 1 else 0))
  | Value.str s => (parseIntString s).map Value.int
  | Value.unicode s => (parseIntString s).map Value.int
  | _ => Option.none

/-- Python long(value). -/
def longCast : Value → Option Value
  | Value.int n => some (Value.long n)
  | Value.long n => some (Value.long n)
  | Value.float q => some (Value.long (ratTrunc q))
  | Value.bool b => some (Value.long (if b then 1 else 0))
  | Value.str s => (parseIntString s).map Value.long
  | Value.unicode s => (parseIntString s).map Value.long
  | _ => Option.none

/-- Python float(value). -/
def floatCast : Value → Option Value
  | Value.int n => some (Value.float (n : Rat))
  | Value.long n => some (Value.float (n : Rat))
  | Value.float q => some (Value.float q)
  | Value.bool b => some (Value.float (if b then 1 else 0))
  | Value.str s => (parseFloatString s).map Value.float
  | Value.unicode s => (parseFloatString s).map Value.float
  | _ => Option.none

/-- Python str(value): succeeds on every value this layer produces. -/
def strCast (v : Value) : Option Value :=
  some (Value.str (pyStr v))

/-- Python unicode(value). -/
def unicodeCast (v : Value) : Option Value :=
  some (Value.unicode (pyStr v))

/-- A numeric cell entry accepted by the vector constructor, as a
rational. -/
def numericToRat : Value → Option Rat
  | Value.int n => some (n : Rat)
  | Value.long n => some (n : Rat)
  | Value.float q => some q
  | Value.bool b => some (if b then 1 else 0)
  | Value.str s => parseFloatString s
  | Value.unicode s => parseFloatString s
  | _ => Option.none

/-- Modelled from the spec: the module sparktk.dtypes is not under src.
The spec says the validator attempts to coerce the cell into a
fixed-length numeric vector via dtypes.vector(length).constructor and
that any failure nulls the cell; here failure is Option.none. -/
def vector_constructor (n : Nat) (v : Value) : Option Value :=
  match v with
  | Value.list vs =>
    if vs.length = n then
      (vs.mapM numericToRat).map (fun qs => Value.list (qs.map Value.float))
    else
      Option.none
  | _ => Option.none

/-- Printable name of a data type, used in the unsupported-type error
message. -/
def dtypeName : DType → String
  | DType.int => "int"
  | DType.long => "long"
  | DType.float => "float"
  | DType.str => "str"
  | DType.unicode => "unicode"
  | DType.bool => "bool"
  | DType.noneType => "NoneType"
  | DType.datetime => "datetime"
  | DType.vector n => "vector(" ++ toString n ++ ")"

/-- The RuntimeError message of validate_pyrdd_schema for a declared type
it cannot cast to. -/
def unsupportedMsg (dt : DType) : String :=
  "Schema validation does not support data type: " ++ dtypeName dt

/-- The ValueError message of validate_schema for a row whose length does
not match the schema length. -/
def rowLenMsg (r s : Nat) : String :=
  "Length of the row (" ++ toString r ++ ") does not match the schema length (" ++ toString s ++ ")."

/-- One loop iteration of validate_schema in frame.py: given the cell
value and the declared column type, produce the value appended to data,
or the uncaught RuntimeError for an unsupported declared type.  Vector
columns try the vector constructor and null the cell on failure; other
columns pass the value through when isinstance already matches, and
otherwise try the cast for int, long, float, str and unicode, nulling
the cell when the cast raises. -/
def castCell (v : Value) (dt : DType) : Except String Value :=
  match dt with
  | DType.vector n => .ok ((vector_constructor n v).getD Value.none)
  | _ =>
    if isInstanceOf v dt then .ok v
    else
      match dt with
      | DType.int => .ok ((intCast v).getD Value.none)
      | DType.long => .ok ((longCast v).getD Value.none)
      | DType.float => .ok ((floatCast v).getD Value.none)
      | DType.str => .ok ((strCast v).getD Value.none)
      | DType.unicode => .ok ((unicodeCast v).getD Value.none)
      | _ => .error (unsupportedMsg dt)

/-- The loop of validate_schema: walk the schema columns in order,
reading the row cell at each position.  The loop enumerates the schema,
so extra row cells beyond the schema are ignored, and a row shorter than
the schema would raise IndexError (unreachable behind the length
check). -/
def validateCells : List Value → Schema → Except String (List Value)
  | _, [] => .ok []
  | [], _ :: _ => .error ("IndexError: list index out of range")
  | v :: vs, c :: cs =>
    match castCell v c.2 with
    | .error m => .error m
    | .ok w =>
      match validateCells vs cs with
      | .error m => .error m
      | .ok ws => .ok (w :: ws)

/-- The inner function validate_schema(row, schema) of
validate_pyrdd_schema: raise ValueError when the row length differs from
the schema length, otherwise process each column. -/
def validate_schema (row : Row) (schema : Schema) : Except String Row :=
  if row.length ≠ schema.length then .error (rowLenMsg row.length schema.length)
  else validateCells row schema

/-- validate_pyrdd_schema(pyrdd, schema): when the argument is an RDD,
return the rdd lazily mapped with validate_schema (each element of the
result list is the deferred outcome for one row); when it is not an RDD,
raise TypeError immediately.  The outer Except is what the call itself
can raise eagerly. -/
def validate_pyrdd_schema (isRDD : Bool) (pyrdd : List Row) (schema : Schema) :
    Except String (List (Except String Row)) :=
  if isRDD then .ok (pyrdd.map (fun r => validate_schema r schema))
  else .error ("Unable to validate schema, because the pyrdd provided is not an RDD.")

/-- Consuming a lazily validated RDD (collect/take): the first deferred
per-row exception aborts the whole materialization. -/
def consume (l : List (Except String Row)) : Except String (List Row) :=
  l.mapM (fun x => x)

/-- The _infer_types_for_row method: the runtime type of each item, with
a nested list mapping to a vector type carrying its length. -/
def _infer_types_for_row (row : Row) : List DType :=
  row.map (fun item =>
    match item with
    | Value.list vs => DType.vector vs.length
    | Value.int _ => DType.int
    | Value.long _ => DType.long
    | Value.float _ => DType.float
    | Value.str _ => DType.str
    | Value.unicode _ => DType.unicode
    | Value.bool _ => DType.bool
    | Value.none => DType.noneType)

/-- Modelled from the spec: the module sparktk.dtypes is not under src.
Per the spec, dtypes._DataTypes.merge_types widens two column types:
identical types merge to themselves; Integer and Float merge to Float;
vector types of differing lengths fail to merge; String is the universal
fallback for otherwise incompatible types. -/
def merge_types (a b : DType) : Except String DType :=
  if a = b then .ok a
  else
    match a, b with
    | DType.vector m, DType.vector n =>
      .error ("Vectors must all be the same length (found lengths " ++ toString m ++ " and " ++ toString n ++ ").")
    | DType.int, DType.float => .ok DType.float
    | DType.float, DType.int => .ok DType.float
    | DType.long, DType.float => .ok DType.float
    | DType.float, DType.long => .ok DType.float
    | _, _ => .ok DType.str

/-- The ValueError message of _merge_types for two type lists of
different lengths. -/
def mergeLenMsg (m n : Nat) : String :=
  "Length of each row must be the same (found rows with lengths: " ++ toString m ++ " and " ++ toString n ++ ")."

/-- The column-wise loop of _merge_types, merging position by position.
It stops at the first per-column merge failure, like the Python loop. -/
def mergeTypeLists : List DType → List DType → Except String (List DType)
  | _, [] => .ok []
  | [], _ :: _ => .ok []
  | a :: xs, b :: ys =>
    match merge_types a b with
    | .error m => .error m
    | .ok t =>
      match mergeTypeLists xs ys with
      | .error m => .error m
      | .ok ts => .ok (t :: ts)

/-- The _merge_types method: raise ValueError when the two type lists
have different lengths, otherwise merge column-wise (the isinstance list
check of the Python code is vacuous in this typed embedding). -/
def _merge_types (type_list_a type_list_b : List DType) : Except String (List DType) :=
  if type_list_a.length ≠ type_list_b.length then
    .error (mergeLenMsg type_list_a.length type_list_b.length)
  else mergeTypeLists type_list_a type_list_b

/-- The sampling loop of _infer_schema, written with an explicit index
and remaining iteration count: for i in range(1, sample_size), merge the
running type list with the types of data[i]. -/
def inferLoop (data : List Row) : Nat → Nat → List DType → Except String (List DType)
  | _, 0, acc => .ok acc
  | i, fuel + 1, acc =>
    match _merge_types acc (_infer_types_for_row (data.getD i [])) with
    | .error m => .error m
    | .ok acc2 => inferLoop data (i + 1) fuel acc2

/-- The column name chosen by _infer_schema for position i: the
requested name when the requested list reaches that far, else the
positional placeholder C followed by the index. -/
def columnName (column_names : List String) (i : Nat) : String :=
  if column_names.length > i then column_names.getD i ("") else "C" ++ toString i

/-- The naming loop of _infer_schema: pair each inferred type, in order,
with its column name. -/
def nameColumns (column_names : List String) : Nat → List DType → Schema
  | _, [] => []
  | i, t :: ts => (columnName column_names i, t) :: nameColumns column_names (i + 1) ts

/-- The _infer_schema method: empty data yields the empty schema;
otherwise the types of row 0 seed the running type list, rows 1 up to
min(sample_size, len(data)) - 1 are merged in, and the result is paired
with column names. -/
def _infer_schema (data : List Row) (column_names : List String := [])
    (sample_size : Nat := 100) : Except String Schema :=
  match data with
  | [] => .ok []
  | r0 :: rest =>
    let ss := if (r0 :: rest).length < sample_size then (r0 :: rest).length else sample_size
    match inferLoop (r0 :: rest) 1 (ss - 1) (_infer_types_for_row r0) with
    | .error m => .error m
    | .ok ts => .ok (nameColumns column_names 0 ts)

/-- The schema argument of the Frame constructor, as the Python value it
holds: absent, a list of bare column names, or a full schema.  The empty
Python list corresponds to nameList [] (the all-strings test is
vacuously true on it). -/
inductive SchemaArg where
  | noSchema
  | nameList (ns : List String)
  | schemaList (s : Schema)
deriving DecidableEq

/-- Python truthiness of the schema variable, as tested by the
constructor line if schema and validate_schema. -/
def schemaTruthy : SchemaArg → Bool
  | SchemaArg.noSchema => false
  | SchemaArg.nameList ns => !ns.isEmpty
  | SchemaArg.schemaList s => !s.isEmpty

/-- The row source stored in a PythonFrame: either the raw rows, or the
rows lazily wrapped by the validator. -/
inductive StoredData where
  | raw (rows : List Row)
  | validated (rows : List (Except String Row))

/-- The PythonFrame container (sparktk.frame.pyframe, not under src):
an rdd together with whatever schema value the constructor installed. -/
structure PythonFrame where
  rdd : StoredData
  schema : SchemaArg

/-- The schema-resolution steps of Frame.__init__ for a non-Scala
source: inference runs only when the source is not already an RDD, and
only when the schema argument is a list of bare names or absent. -/
def resolveSchema (sourceIsRDD : Bool) (rows : List Row) (arg : SchemaArg) :
    Except String SchemaArg :=
  if sourceIsRDD then .ok arg
  else
    match arg with
    | SchemaArg.nameList ns =>
      match _infer_schema rows ns 100 with
      | .error m => .error m
      | .ok s => .ok (SchemaArg.schemaList s)
    | SchemaArg.noSchema =>
      match _infer_schema rows [] 100 with
      | .error m => .error m
      | .ok s => .ok (SchemaArg.schemaList s)
    | SchemaArg.schemaList s => .ok (SchemaArg.schemaList s)

/-- The local branch of Frame.__init__: resolve the schema, then wrap
the source with the validator only when the resolved schema is truthy
and validate_schema is set, and install the result as a PythonFrame.
When the schema variable still holds a bare name list (possible only for
an RDD source), the validator closure indexes the names as if they were
schema tuples and every consumed row fails with ValueError or TypeError;
that branch is modelled by per-row errors. -/
def frameInit (sourceIsRDD : Bool) (rows : List Row) (arg : SchemaArg)
    (validate_schema_flag : Bool) : Except String PythonFrame :=
  match resolveSchema sourceIsRDD rows arg with
  | .error m => .error m
  | .ok resolved =>
    if schemaTruthy resolved && validate_schema_flag then
      match resolved with
      | SchemaArg.schemaList s =>
        .ok ⟨StoredData.validated (rows.map (fun r => validate_schema r s)), resolved⟩
      | SchemaArg.nameList ns =>
        .ok ⟨StoredData.validated (rows.map (fun r =>
          if r.length ≠ ns.length then .error (rowLenMsg r.length ns.length)
          else .error ("TypeError: isinstance() arg 2 must be a class, type, or tuple of classes and types"))), resolved⟩
      | SchemaArg.noSchema => .ok ⟨StoredData.raw rows, resolved⟩
    else .ok ⟨StoredData.raw rows, resolved⟩

/-- The engine bridge the Frame facade talks to when promoting or
demoting a backend: the Scala-side types are abstract, and every bridge
call can raise (the Except result).  The fields correspond to
schema_to_scala, PythonJavaRdd.pythonToScala, the JVM Frame constructor,
the Scala frame accessors schema() and rdd(), PythonJavaRdd.scalaToPython
and schema_to_python. -/
structure Engine where
  ScalaFrame : Type
  ScalaSchema : Type
  ScalaRDD : Type
  schema_to_scala : SchemaArg → Except String ScalaSchema
  pythonToScala : StoredData → ScalaSchema → Except String ScalaRDD
  create_scala_frame : ScalaRDD → ScalaSchema → Except String ScalaFrame
  schemaOf : ScalaFrame → Except String ScalaSchema
  rddOf : ScalaFrame → Except String ScalaRDD
  scalaToPython : ScalaRDD → Except String (List Row)
  schema_to_python : ScalaSchema → Except String Schema

/-- The backend held in Frame._frame: exactly one of a PythonFrame or a
Scala frame handle. -/
inductive Backend (e : Engine) where
  | python (pf : PythonFrame)
  | scala (sf : e.ScalaFrame)

/-- The body of the _scala property for a Python backend: translate the
schema, bridge the rows over, and construct the Scala frame, in that
order; the first raise aborts the whole conversion before any state is
assigned. -/
def convertToScala (e : Engine) (pf : PythonFrame) : Except String e.ScalaFrame := do
  let ss ← e.schema_to_scala pf.schema
  let srdd ← e.pythonToScala pf.rdd ss
  e.create_scala_frame srdd ss

/-- The body of the _python property for a Scala backend: fetch the
Scala schema, fetch and bridge the rows, translate the schema back, in
the order of the Python statements. -/
def convertToPython (e : Engine) (sf : e.ScalaFrame) : Except String PythonFrame := do
  let ss ← e.schemaOf sf
  let jrdd ← e.rddOf sf
  let rows ← e.scalaToPython jrdd
  let ps ← e.schema_to_python ss
  pure ⟨StoredData.raw rows, SchemaArg.schemaList ps⟩

/-- The _scala property: when the backend is already Scala, return the
stored handle unchanged; otherwise convert and assign the new backend
only if the whole conversion succeeded.  The returned pair is the new
Frame state and the value of the property access. -/
def _scala (e : Engine) (b : Backend e) : Backend e × Except String e.ScalaFrame :=
  match b with
  | Backend.scala sf => (Backend.scala sf, .ok sf)
  | Backend.python pf =>
    match convertToScala e pf with
    | .error m => (Backend.python pf, .error m)
    | .ok sf => (Backend.scala sf, .ok sf)

/-- The _python property: when the backend is already Python, return the
stored PythonFrame unchanged; otherwise convert and assign the new
backend only if the whole conversion succeeded. -/
def _python (e : Engine) (b : Backend e) : Backend e × Except String PythonFrame :=
  match b with
  | Backend.python pf => (Backend.python pf, .ok pf)
  | Backend.scala sf =>
    match convertToPython e sf with
    | .error m => (Backend.scala sf, .error m)
    | .ok pf => (Backend.python pf, .ok pf)

/-- An engine whose every bridge call raises; used to exercise the
failure paths of the promotion state machine. -/
def failEngine : Engine where
  ScalaFrame := Unit
  ScalaSchema := Unit
  ScalaRDD := Unit
  schema_to_scala := fun _ => .error ("boom")
  pythonToScala := fun _ _ => .error ("boom")
  create_scala_frame := fun _ _ => .error ("boom")
  schemaOf := fun _ => .error ("boom")
  rddOf := fun _ => .error ("boom")
  scalaToPython := fun _ => .error ("boom")
  schema_to_python := fun _ => .error ("boom")

/-- An empty Python frame used as a concrete conversion input. -/
def emptyPyFrame : PythonFrame :=
  ⟨StoredData.raw [], SchemaArg.noSchema⟩

/-- The cast-target types the validator handles without raising the
unsupported-type RuntimeError. -/
def supportedCastTarget : DType → Bool
  | DType.int => true
  | DType.long => true
  | DType.float => true
  | DType.str => true
  | DType.unicode => true
  | DType.vector _ => true
  | _ => false

/-- Every supported cast target produces an ok result from castCell. -/
theorem castCell_ok_of_supported (v : Value) (dt : DType)
    (h : supportedCastTarget dt = true) : ∃ w, castCell v dt = .ok w := by
  cases dt with
  | int => simp only [castCell]; split <;> exact ⟨_, rfl⟩
  | long => simp only [castCell]; split <;> exact ⟨_, rfl⟩
  | float => simp only [castCell]; split <;> exact ⟨_, rfl⟩
  | str => simp only [castCell]; split <;> exact ⟨_, rfl⟩
  | unicode => simp only [castCell]; split <;> exact ⟨_, rfl⟩
  | vector n => exact ⟨_, rfl⟩
  | bool => simp [supportedCastTarget] at h
  | noneType => simp [supportedCastTarget] at h
  | datetime => simp [supportedCastTarget] at h

theorem validateCells_ok_of_supported (cs : Schema) :
    ∀ vs : List Value, vs.length = cs.length →
      (∀ c ∈ cs, supportedCastTarget c.2 = true) →
      ∃ out, validateCells vs cs = .ok out := by
  induction cs with
  | nil => intro vs _ _; exact ⟨[], by cases vs <;> rfl⟩
  | cons c cs ih =>
    intro vs hlen hsup
    match vs with
    | [] => simp at hlen
    | v :: vs =>
      obtain ⟨w, hw⟩ := castCell_ok_of_supported v c.2 (hsup c (by simp))
      obtain ⟨ws, hws⟩ := ih vs (by simpa using hlen) (fun d hd => hsup d (by simp [hd]))
      exact ⟨w :: ws, by simp [validateCells, hw, hws]⟩

theorem validateCells_length (cs : Schema) :
    ∀ (vs : List Value) (out : List Value), validateCells vs cs = .ok out →
      out.length = cs.length := by
  induction cs with
  | nil =>
    intro vs out h
    cases vs <;> simp [validateCells] at h <;> simp [← h]
  | cons c cs ih =>
    intro vs out h
    match vs with
    | [] => simp [validateCells] at h
    | v :: vs =>
      simp only [validateCells] at h
      rcases hc : castCell v c.2 with m | w <;> rw [hc] at h
      · exact absurd h (by simp)
      · rcases hr : validateCells vs cs with m | ws <;> rw [hr] at h
        · exact absurd h (by simp)
        · obtain rfl : w :: ws = out := by simpa using h
          simp [ih vs ws hr]

theorem inferLoop_append (data extra : List Row) :
    ∀ (fuel i : Nat) (acc : List DType), i + fuel ≤ data.length →
      inferLoop (data ++ extra) i fuel acc = inferLoop data i fuel acc := by
  intro fuel
  induction fuel with
  | zero => intro i acc _; rfl
  | succ n ih =>
    intro i acc h
    have hg : (data ++ extra).getD i [] = data.getD i [] :=
      List.getD_append data extra [] i (by omega)
    simp only [inferLoop, hg]
    rcases hm : _merge_types acc (_infer_types_for_row (data.getD i [])) with m | acc2
    · rfl
    · exact ih (i + 1) acc2 (by omega)

theorem nameColumns_map_fst (names : List String) :
    ∀ (ts : List DType) (j : Nat),
      (nameColumns names j ts).map Prod.fst
        = (List.range ts.length).map (fun k => columnName names (j + k)) := by
  intro ts
  induction ts with
  | nil => intro j; rfl
  | cons t ts ih =>
    intro j
    simp only [nameColumns, List.map_cons, List.length_cons, List.range_succ_eq_map,
      List.map_map]
    refine congrArg₂ List.cons (congrArg (columnName names) (by omega)) ?_
    rw [ih (j + 1)]
    exact List.map_congr_left (fun k _ => congrArg (columnName names) (by omega))

theorem nameColumns_length (names : List String) :
    ∀ (ts : List DType) (j : Nat), (nameColumns names j ts).length = ts.length := by
  intro ts
  induction ts with
  | nil => intro j; rfl
  | cons t ts ih => intro j; simp [nameColumns, ih]



/-- C2 counterexample: Boolean belongs to the supported cast-target set
named by the claim, yet a bool column holding a non-bool cell is not
nulled: the validator has no bool cast branch and the cell raises the
unsupported-type RuntimeError, so a value-level failure can abort the
row. -/
theorem C2_counterexample :
    validate_schema [Value.int 0] [("a", DType.bool)]
      = .error (unsupportedMsg DType.bool) := rfl

/-- C2 amended: for every row whose arity equals the schema length and
whose declared column types are all cast targets the validator
implements (int, long, float, str, unicode, vector - Boolean is not
among them), validate_schema returns ok: a cell that cannot be cast is
nulled and the row continues, and a value-level cast failure never
raises; in particular, with schema [(a, Integer)] and row [abc], the
result is a row holding the null marker, not an exception. -/
theorem C2_cast_failure_nulls :
    (∀ (row : Row) (schema : Schema),
        row.length = schema.length →
        (∀ c ∈ schema, supportedCastTarget c.2 = true) →
        ∃ out, validate_schema row schema = .ok out)
    ∧ validate_schema [Value.str "abc"] [("a", DType.int)] = .ok [Value.none] := by
  constructor
  · intro row schema hlen hsup
    unfold validate_schema
    rw [if_neg (by omega)]
    exact validateCells_ok_of_supported schema row hlen hsup
  · rfl

/-- Witness for C2 at the concrete input of the claim. -/
theorem C2_witness :
    ∃ out, validate_schema [Value.str "abc"] [("a", DType.int)] = .ok out :=
  C2_cast_failure_nulls.1 [Value.str "abc"] [("a", DType.int)] (by decide)
    (by decide)

/-- C3: a row whose arity differs from the schema length makes
validate_schema raise the ValueError (the SchemaError of the spec) for
that row; consuming the lazily mapped RDD aborts at the first such row
instead of nulling cells and continuing. -/
theorem C3_arity_mismatch_raises :
    (∀ (row : Row) (schema : Schema), row.length ≠ schema.length →
        validate_schema row schema = .error (rowLenMsg row.length schema.length))
    ∧ (do
        let l ← validate_pyrdd_schema true
          [[Value.int 1, Value.int 2], [Value.int 1, Value.int 2, Value.int 3],
            [Value.int 9, Value.int 9]]
          [("a", DType.int), ("b", DType.int)]
        consume l) = .error (rowLenMsg 3 2) := by
  constructor
  · intro row schema h
    unfold validate_schema
    rw [if_pos h]
  · rfl

/-- Witness for C3 at a concrete arity mismatch. -/
theorem C3_witness :
    validate_schema [Value.int 1] [("a", DType.int), ("b", DType.int)]
      = .error (rowLenMsg 1 2) :=
  C3_arity_mismatch_raises.1 [Value.int 1] [("a", DType.int), ("b", DType.int)]
    (by decide)

/-- C9: every row validate_schema emits has arity exactly the schema
length: an ok result holds one entry per schema column. -/
theorem C9_output_arity :
    ∀ (row : Row) (schema : Schema) (out : Row),
      validate_schema row schema = .ok out → out.length = schema.length := by
  intro row schema out h
  unfold validate_schema at h
  by_cases hl : row.length ≠ schema.length
  · rw [if_pos hl] at h
    exact absurd h (by simp)
  · rw [if_neg hl] at h
    exact validateCells_length schema row out h

/-- Witness for C9 at a concrete validated row. -/
theorem C9_witness :
    ([Value.int 1, Value.none] : List Value).length
      = ([("a", DType.int), ("b", DType.int)] : Schema).length :=
  C9_output_arity [Value.int 1, Value.str "abc"]
    [("a", DType.int), ("b", DType.int)] [Value.int 1, Value.none] (by rfl)

/-- C10: since the type-match test is isinstance and Python bool is a
subclass of int, a bool value in a column declared int is passed through
unchanged rather than cast to 1 or 0 or nulled. -/
theorem C10_bool_passthrough :
    ∀ (b : Bool) (nm : String),
      validate_schema [Value.bool b] [(nm, DType.int)] = .ok [Value.bool b] :=
  fun _ _ => rfl

/-- C1 counterexample: a schema declaring the unsupported type datetime
does not raise at the call that installs the schema; validate_pyrdd_schema
returns ok, with the unsupported-type RuntimeError only deferred inside
the per-row results. -/
theorem C1_counterexample :
    validate_pyrdd_schema true [[Value.int 0]] [("a", DType.datetime)]
      = .ok [Except.error (unsupportedMsg DType.datetime)] := rfl

/-- C1 amended: validate_pyrdd_schema performs no eager type-support
check: for an RDD it always returns the lazily mapped rows; the
unsupported-type RuntimeError for a declared type outside the supported
cast-target set is raised at row-processing time, when a row whose cell
does not already match is consumed. -/
theorem C1_unsupported_type_error_is_lazy :
    (∀ (rows : List Row) (schema : Schema),
        validate_pyrdd_schema true rows schema
          = .ok (rows.map (fun r => validate_schema r schema)))
    ∧ (∀ v : Value,
        validate_schema [v] [("a", DType.datetime)]
          = .error (unsupportedMsg DType.datetime)) := by
  constructor
  · intro rows schema; rfl
  · intro v; cases v <;> rfl

/-- C4: requesting the Scala backend of a Frame already backed by a
Scala frame is a no-op returning the stored handle, and requesting the
Python backend of an already-Python Frame is likewise a no-op; neither
calls the engine (the result is the same for every engine). -/
theorem C4_backend_access_idempotent :
    ∀ (e : Engine) (sf : e.ScalaFrame) (pf : PythonFrame),
      _scala e (Backend.scala sf) = (Backend.scala sf, Except.ok sf)
      ∧ _python e (Backend.python pf) = (Backend.python pf, Except.ok pf) :=
  fun _ _ _ => ⟨rfl, rfl⟩

/-- C5: backend swaps are atomic: whenever a promote or demote exchange
with the engine raises, the property access propagates the error and the
previously active backend is still installed. -/
theorem C5_swap_atomic :
    ∀ (e : Engine) (b : Backend e) (m : String),
      ((_scala e b).2 = Except.error m → (_scala e b).1 = b)
      ∧ ((_python e b).2 = Except.error m → (_python e b).1 = b) := by
  intro e b m
  constructor
  · intro h
    match b with
    | Backend.scala sf => simp [_scala] at h
    | Backend.python pf =>
      simp only [_scala] at h ⊢
      rcases hc : convertToScala e pf with m2 | sf
      · rfl
      · rw [hc] at h
        exact Except.noConfusion h
  · intro h
    match b with
    | Backend.python pf => simp [_python] at h
    | Backend.scala sf =>
      simp only [_python] at h ⊢
      rcases hc : convertToPython e sf with m2 | pf
      · rfl
      · rw [hc] at h
        exact Except.noConfusion h

/-- Witness for C5: with an engine whose bridge calls all raise, the
promote of a Python-backed frame and the demote of a Scala-backed frame
both leave the original backend installed. -/
theorem C5_witness :
    (_scala failEngine (Backend.python emptyPyFrame)).1
        = Backend.python emptyPyFrame
      ∧ (_python failEngine (Backend.scala ())).1 = Backend.scala () :=
  ⟨(C5_swap_atomic failEngine (Backend.python emptyPyFrame) "boom").1 (by rfl),
   (C5_swap_atomic failEngine (Backend.scala ()) "boom").2 (by rfl)⟩

/-- C6: _infer_schema is determined by the first min(sample_size,
len(data)) rows: appending rows past the sample bound changes nothing;
the merge is column-wise via _merge_types with row 0 as the seed, a
merge of type lists of different lengths raises the arity ValueError, as
does a concrete pair of sampled rows that disagree on arity; and merging
runs column-wise through merge_types, as the int, float, str example
shows. -/
theorem C6_infer_schema_sampling :
    (∀ (data extra : List Row) (names : List String) (ss : Nat),
        data ≠ [] → ss ≤ data.length →
        _infer_schema (data ++ extra) names ss = _infer_schema data names ss)
    ∧ (∀ a b : List DType, a.length ≠ b.length →
        _merge_types a b = .error (mergeLenMsg a.length b.length))
    ∧ _infer_schema [[Value.int 1], [Value.int 2, Value.int 3]] [] 100
        = .error (mergeLenMsg 1 2)
    ∧ _infer_schema [[Value.int 1], [Value.float 1], [Value.str "x"]] [] 100
        = .ok [("C0", DType.str)] := by
  refine ⟨?_, ?_, rfl, rfl⟩
  · intro data extra names ss hne hle
    match data with
    | r0 :: rest =>
      show _infer_schema (r0 :: (rest ++ extra)) names ss = _infer_schema (r0 :: rest) names ss
      simp only [_infer_schema]
      have h1 : ¬((r0 :: (rest ++ extra)).length < ss) := by
        simp only [List.length_cons, List.length_append] at *
        omega
      have h2 : ¬((r0 :: rest).length < ss) := by
        simp only [List.length_cons] at *
        omega
      rw [if_neg h1, if_neg h2]
      have := inferLoop_append (r0 :: rest) extra (ss - 1) 1 (_infer_types_for_row r0)
        (by simp only [List.length_cons] at *; omega)
      rw [show r0 :: (rest ++ extra) = (r0 :: rest) ++ extra from rfl, this]
  · intro a b h
    unfold _merge_types
    rw [if_pos h]

/-- Witness for C6: with sample_size 1 the second row is past the sample
bound and does not change the inferred schema. -/
theorem C6_witness :
    _infer_schema ([[Value.int 1]] ++ [[Value.str "x"]]) [] 1
      = _infer_schema [[Value.int 1]] [] 1 :=
  C6_infer_schema_sampling.1 [[Value.int 1]] [[Value.str "x"]] [] 1
    (by simp) (by simp)

/-- C7: in the schema produced by _infer_schema, column i is named by
the requested names when i is in range and by the placeholder C followed
by i otherwise (requested names beyond the column count are ignored);
and the data [[1, a, 1.5], [2, b, 5.0]] with names [number, letter]
yields the schema [(number, Integer), (letter, String), (C2, Float)]. -/
theorem C7_column_naming :
    (∀ (data : List Row) (names : List String) (ss : Nat) (sch : Schema),
        _infer_schema data names ss = .ok sch →
        sch.map Prod.fst = (List.range sch.length).map (columnName names))
    ∧ _infer_schema
        [[Value.int 1, Value.str "a", Value.float (3 / 2)],
          [Value.int 2, Value.str "b", Value.float 5]]
        ["number", "letter"] 100
        = .ok [("number", DType.int), ("letter", DType.str), ("C2", DType.float)] := by
  constructor
  · intro data names ss sch h
    match data with
    | [] =>
      obtain rfl : sch = [] := by simpa [_infer_schema] using h.symm
      rfl
    | r0 :: rest =>
      simp only [_infer_schema] at h
      rcases hl : inferLoop (r0 :: rest) 1
          ((if (r0 :: rest).length < ss then (r0 :: rest).length else ss) - 1)
          (_infer_types_for_row r0) with m | ts <;> rw [hl] at h
      · exact absurd h (by simp)
      · obtain rfl : nameColumns names 0 ts = sch := by simpa using h
        rw [nameColumns_length names ts 0, nameColumns_map_fst names ts 0]
        exact List.map_congr_left (fun k _ => congrArg (columnName names) (by omega))
  · rfl

/-- Witness for C7 at the concrete example of the claim. -/
theorem C7_witness :
    ([("number", DType.int), ("letter", DType.str), ("C2", DType.float)] : Schema).map
        Prod.fst
      = (List.range
          ([("number", DType.int), ("letter", DType.str), ("C2", DType.float)] : Schema).length).map
          (columnName ["number", "letter"]) :=
  C7_column_naming.1
    [[Value.int 1, Value.str "a", Value.float (3 / 2)],
      [Value.int 2, Value.str "b", Value.float 5]]
    ["number", "letter"] 100
    [("number", DType.int), ("letter", DType.str), ("C2", DType.float)] (by rfl)

/-- C8: when validate_schema is requested but the resolved schema is
falsy, validation is silently skipped and the raw data is installed in
the local backend: an RDD source with no schema keeps schema None, and
an empty data list infers the empty schema; both install the rows
unvalidated. -/
theorem C8_validation_skipped_on_falsy_schema :
    ∀ rows : List Row,
      frameInit true rows SchemaArg.noSchema true
          = .ok ⟨StoredData.raw rows, SchemaArg.noSchema⟩
      ∧ frameInit false [] SchemaArg.noSchema true
          = .ok ⟨StoredData.raw [], SchemaArg.schemaList []⟩ :=
  fun _ => ⟨rfl, rfl⟩

end SparkTK
